import Mathlib

/-!
Shallow embedding of `src/msocks/session.go` (package msocks): the session
multiplexer of the goproxy tunnel.  Stateful Go code becomes explicit state
passing over a `Session` record; Go channels become bounded queues
(`List (Option Frame)`, where the inner `none` is the nil sentinel frame that
`Close` delivers); the uint16 id space is `Nat` with explicit `% 65536`;
fallible collaborators (the connect callback, DNS resolution, frame encoding,
transport writes) are supplied as explicit oracle parameters.
-/

set_option maxRecDepth 32768

namespace Msocks

/-- Queue capacity of each stream's inbound channel (`CHANLEN = 1024`). -/
def CHANLEN : Nat := 1024

/-- Ping interval in seconds (`PINGTIME = 30 * time.Second`). -/
def PINGTIME : Nat := 30

/-- Idle-close duration in seconds (`IDLECLOSE = 10 * time.Minute`). -/
def IDLECLOSE : Nat := 600

/-- Size of the 16-bit stream-id space. -/
def IDSPACE : Nat := 65536

/-- Modelled from the spec: the frame taxonomy of §6 (the wire codec file
`frame.go` is not part of the provided source).  Fields beyond the stream id
are never inspected by the session; we keep just enough payload to
distinguish frames.
`errno` carries the failure reason code of a FAILED frame. -/
inductive Frame where
| ok (streamid : Nat)
| failed (streamid : Nat) (errno : Nat)
| data (streamid : Nat) (payload : List Nat)
| ack (streamid : Nat)
| fin (streamid : Nat)
| addr (streamid : Nat) (addrs : List String)
| syn (streamid : Nat) (address : String)
| dns (streamid : Nat) (hostname : String)
| ping
deriving DecidableEq, Repr

/-- Modelled from the spec: failure reason code "id exists" sent on a SYN
collision (`ERR_IDEXIST` lives in the codec file, absent from src). -/
def ERR_IDEXIST : Nat := 1

/-- Modelled from the spec: failure reason code "connect failed" sent when the
connect callback errors (`ERR_CONNFAILED` lives in the codec file). -/
def ERR_CONNFAILED : Nat := 2

/-- Stream-id accessor (`f.GetStreamid()`); the PING frame is built with
stream id 0 (`NewFrameNoParam(MSG_PING, 0)`). -/
def GetStreamid : Frame → Nat
| .ok i => i
| .failed i _ => i
| .data i _ => i
| .ack i => i
| .fin i => i
| .addr i _ => i
| .syn i _ => i
| .dns i _ => i
| .ping => 0

/-- Whether the dispatch loop routes this frame to a stream queue
(the `*FrameOK, *FrameFAILED, *FrameData, *FrameAck, *FrameFin, *FrameAddr`
arm of `Run`). -/
def streamScoped : Frame → Bool
| .ok _ => true
| .failed _ _ => true
| .data _ _ => true
| .ack _ => true
| .fin _ => true
| .addr _ _ => true
| _ => false

/-- One `chan Frame` value of the ports map.  `none` is the nil channel used
as reserved-but-not-connected placeholder (`s.PutIntoId(ft.Streamid, nil)`);
`some q` is a real buffered channel whose pending elements are `q`.  An
element `none` of `q` is the nil sentinel frame sent by `Close`. -/
abbrev Chan := Option (List (Option Frame))

/-- Delete every binding of `id` from the ports association list
(`delete(s.ports, streamid)`). -/
def erasePort (ps : List (Nat × Chan)) (id : Nat) : List (Nat × Chan) :=
  ps.filter (fun p => p.1 != id)

/-- Insert / overwrite the binding of `id` (`s.ports[id] = ch`). -/
def insertPort (ps : List (Nat × Chan)) (id : Nat) (ch : Chan) : List (Nat × Chan) :=
  (id, ch) :: erasePort ps id

/-- Session state: `next_id` and the `ports` map guarded by `plock`,
whether an idle-close timer is currently armed (`s.idleclose != nil`),
and the number of queued liveness signals in `ch_ping` (capacity 3). -/
structure Session where
  next_id : Nat
  ports : List (Nat × Chan)
  idleclose : Bool
  ch_ping : Nat
deriving DecidableEq, Repr

/-- State set up by `NewSession`: zero-valued `next_id`, empty ports map, no
idle timer, and one liveness signal already queued (`s.ch_ping <- 1`). -/
def NewSession : Session :=
  { next_id := 0, ports := [], idleclose := false, ch_ping := 1 }

/-- Scan of `PutIntoNextId`: starting at candidate `cur`, return the first id
not bound in `ports`, advancing by `+1 % 65536`; `fuel` bounds the number of
candidates tried (the Go loop stops with an error when the incremented
`next_id` wraps back to `startid`, i.e. after 65536 candidates). -/
def findFreeId (ps : List (Nat × Chan)) : Nat → Nat → Option Nat
| 0, _ => none
| fuel + 1, cur =>
  if (ps.lookup cur).isSome then findFreeId ps fuel ((cur + 1) % IDSPACE)
  else some cur

/-- Embedding of `PutIntoNextId`: allocate the first free id scanning forward
from `next_id` with wraparound, insert `ch` there, advance `next_id` past the
returned id and disarm any idle-close timer; if all 65536 candidates are
taken, fail ("run out of stream id") leaving the state unchanged. -/
def PutIntoNextId (s : Session) (ch : Chan) : Option Nat × Session :=
  match findFreeId s.ports IDSPACE s.next_id with
  | none => (none, s)
  | some id =>
    (some id,
     { s with next_id := (id + 1) % IDSPACE,
              ports := insertPort s.ports id ch,
              idleclose := false })

/-- Embedding of `PutIntoId`: direct insert/overwrite at a caller-specified
id.  Note the source does not touch `s.idleclose` here. -/
def PutIntoId (s : Session) (id : Nat) (ch : Chan) : Session :=
  { s with ports := insertPort s.ports id ch }

/-- Embedding of `RemovePorts`: delete the entry if present (else report
"streamid not exist"); afterwards, whenever `len(s.ports) == 0`, arm one
idle-close timer via `time.AfterFunc`.  Returns (success flag, number of
timers armed by this call, new state). -/
def RemovePorts (s : Session) (streamid : Nat) : Bool × Nat × Session :=
  let present := (s.ports.lookup streamid).isSome
  let ps := if present then erasePort s.ports streamid else s.ports
  (present,
   if ps = [] then 1 else 0,
   { s with ports := ps, idleclose := if ps = [] then true else s.idleclose })

/-- Embedding of `Number`: current entry count of the ports map. -/
def Number (s : Session) : Nat := s.ports.length

/-- Non-blocking send of a frame into a channel, as performed by the
`select` with a `default` arm in `sendFrameInChan`: fails (`none`) when the
channel is the nil placeholder (a send on a nil channel is never ready) or
when its buffer already holds `CHANLEN` elements. -/
def trySend (ch : Chan) (f : Frame) : Option Chan :=
  match ch with
  | none => none
  | some q => if q.length < CHANLEN then some (some (q ++ [some f])) else none

/-- Embedding of `sendFrameInChan`: look up the frame's stream id; if absent,
log and report `true` (frame dropped, loop continues).  If the non-blocking
send fails, drop the frame, call `RemovePorts` on the id, and report
`RemovePorts(streamid) == nil`, i.e. whether the removal succeeded. -/
def sendFrameInChan (s : Session) (f : Frame) : Bool × Session :=
  let streamid := GetStreamid f
  match s.ports.lookup streamid with
  | none => (true, s)
  | some ch =>
    match trySend ch f with
    | some ch2 => (true, { s with ports := insertPort s.ports streamid ch2 })
    | none =>
      let r := RemovePorts s streamid
      (r.1, r.2.2)

/-- Transport-level write errors, as the session distinguishes them:
`closing` stands for the error whose text is
"use of closed network connection" (`errClosing`), `eof` for `io.EOF`,
`shortWrite` for `io.ErrShortWrite`, `other k` for any further error. -/
inductive NetErr where
| closing
| eof
| shortWrite
| other (code : Nat)
deriving DecidableEq, Repr

/-- Embedding of `Session.Write`: given the length of the buffer and the
result `(n, err)` of the single underlying `conn.Write` call performed under
`flock`, produce the pair the method returns: `errClosing` maps to
`(0, io.EOF)`; any other non-nil error returns unchanged; a nil error with
`n != len(b)` yields `io.ErrShortWrite`; otherwise `(n, nil)`. -/
def Write (blen : Nat) (res : Nat × Option NetErr) : Nat × Option NetErr :=
  match res with
  | (n, none) => if n != blen then (n, some NetErr.shortWrite) else (n, none)
  | (n, some e) =>
    if e = NetErr.closing then (0, some NetErr.eof) else (n, some e)

/-- Sentinel delivery of `Close` into one channel: the source performs the
blocking send `v <- nil`, so the send completes (`some`) only on a real
channel with spare capacity, appending the nil sentinel; on a nil placeholder
or a full buffer the send blocks forever (`none`). -/
def sendSentinel (ch : Chan) : Option Chan :=
  match ch with
  | none => none
  | some q => if q.length < CHANLEN then some (some (q ++ [none])) else none

/-- Embedding of the loop of `Close`: deliver the nil sentinel into every
entry's channel in order with a blocking send.  The result is `some` of the
updated ports exactly when every send completes — only then does `Close`
return and the deferred `s.conn.Close()` run; a blocked send (`none`) means
`Close` never completes and the transport is never closed by it. -/
def CloseSends : List (Nat × Chan) → Option (List (Nat × Chan))
| [] => some []
| p :: rest =>
  match sendSentinel p.2 with
  | none => none
  | some ch2 => (CloseSends rest).map (fun r => (p.1, ch2) :: r)

/-- Boolean form of "the blocking sentinel send into this channel completes
at once": a real channel whose buffer is below capacity. -/
def chanReady : Chan → Bool
| none => false
| some q => q.length < CHANLEN

/-- Observable steps of the `on_syn` handler, in execution order, used to
state ordering properties (reservation before the connect callback, removal
after the FAILED reply). -/
inductive SynEv where
| reserve (id : Nat)
| connect (id : Nat) (address : String)
| write (f : Frame) (ok : Bool)
| rebind (id : Nat)
| remove (id : Nat) (ok : Bool)
deriving DecidableEq, Repr

/-- Oracle inputs of one `on_syn` run: the result of the injected connect
callback `on_conn` (`none` = error, `some q` = success returning a channel
with pending contents `q`), and whether the handler's single `Write` call
succeeds. -/
structure SynEnv where
  connect : Option (List (Option Frame))
  writeOk : Bool
deriving DecidableEq, Repr

/-- Result of one `on_syn` run, with the goroutine body run to completion:
the boolean `on_syn` returns to the dispatch loop, the frames passed to
`Write`, the final session state, and the ordered event trace. -/
structure SynOut where
  ret : Bool
  sent : List Frame
  s : Session
  events : List SynEv
deriving DecidableEq, Repr

/-- Embedding of `on_syn` on a SYN frame with stream id `id` and target
`address`.  If the id is taken: reply FAILED(ERR_IDEXIST) and return the
write's success as the handler verdict.  Otherwise reserve the id with a nil
placeholder, run the connect callback; on callback error reply
FAILED(ERR_CONNFAILED) and, only if that write succeeded, remove the reserved
entry; on callback success rebind the entry to the real channel and reply
OK.  The fresh-id path always reports `true` to the dispatch loop. -/
def on_syn (s : Session) (id : Nat) (address : String) (env : SynEnv) : SynOut :=
  if (s.ports.lookup id).isSome then
    { ret := env.writeOk,
      sent := [Frame.failed id ERR_IDEXIST],
      s := s,
      events := [SynEv.write (Frame.failed id ERR_IDEXIST) env.writeOk] }
  else
    let s1 := PutIntoId s id none
    match env.connect with
    | none =>
      let f := Frame.failed id ERR_CONNFAILED
      if env.writeOk then
        let r := RemovePorts s1 id
        { ret := true, sent := [f], s := r.2.2,
          events := [SynEv.reserve id, SynEv.connect id address,
                     SynEv.write f true, SynEv.remove id r.1] }
      else
        { ret := true, sent := [f], s := s1,
          events := [SynEv.reserve id, SynEv.connect id address,
                     SynEv.write f false] }
    | some q =>
      let s2 := PutIntoId s1 id (some q)
      { ret := true, sent := [Frame.ok id], s := s2,
        events := [SynEv.reserve id, SynEv.connect id address,
                   SynEv.rebind id, SynEv.write (Frame.ok id) env.writeOk] }

/-- Oracle inputs of one `on_dns` run: the result of `net.LookupIP`
(`none` = resolution error), whether `NewFrameAddr` encodes successfully, and
whether the reply `Write` succeeds. -/
structure DnsEnv where
  resolve : Option (List String)
  encodeOk : Bool
  writeOk : Bool
deriving DecidableEq, Repr

/-- Embedding of the `on_dns` goroutine body: a resolution error is replaced
by the empty address list; if encoding fails the handler just logs and sends
nothing; otherwise one ADDR frame is passed to `Write` (whose own failure is
only logged).  Returns the frames passed to `Write`; the session state and
the dispatch loop are untouched on every path. -/
def on_dns (id : Nat) (env : DnsEnv) : List Frame :=
  let ipaddr := env.resolve.getD []
  if env.encodeOk then [Frame.addr id ipaddr] else []

/-- Verdict of one dispatch-loop iteration: keep looping, or return from
`Run` (which triggers the deferred `s.Close()`). -/
inductive LoopAction where
| keepGoing
| exit
deriving DecidableEq, Repr

/-- Inbound events consumed by one iteration of `Run`: a decode error from
`ReadFrame`, a frame variant outside the handled set (the `default` arm), or
a decoded frame. -/
inductive Inbound where
| decodeErr
| unknownVariant
| frame (f : Frame)
deriving DecidableEq, Repr

/-- Oracle inputs of one dispatch iteration (for the handlers it may run). -/
structure Env where
  syn : SynEnv
  dns : DnsEnv
deriving DecidableEq, Repr

/-- Embedding of one iteration of `Run`: returns the loop verdict, the new
session state, and the frames the iteration's handlers passed to `Write`.
Decode errors and unknown variants exit the loop; stream-scoped frames go
through `sendFrameInChan` and exit the loop exactly when it reports false;
SYN runs `on_syn` and exits exactly when it reports false; DNS spawns
`on_dns` and always continues; PING queues a liveness signal into `ch_ping`
if it has room, else drops it, and always continues. -/
def RunStep (s : Session) (env : Env) : Inbound → LoopAction × Session × List Frame
| .decodeErr => (.exit, s, [])
| .unknownVariant => (.exit, s, [])
| .frame (.syn id address) =>
  let o := on_syn s id address env.syn
  (if o.ret then .keepGoing else .exit, o.s, o.sent)
| .frame (.dns id _) => (.keepGoing, s, on_dns id env.dns)
| .frame .ping =>
  (.keepGoing,
   if s.ch_ping < 3 then { s with ch_ping := s.ch_ping + 1 } else s, [])
| .frame f =>
  let r := sendFrameInChan s f
  (if r.1 then .keepGoing else .exit, r.2, [])

/-- Keepalive loop of `keep_eye_open`, in seconds, driven by the sorted list
of liveness-signal arrival times still pending.  Each iteration arms a fresh
`time.After(6 * PINGTIME)` at its start (`now`); if no signal arrives within
that window the session is force-closed at `now + 6 * PINGTIME`.  Otherwise
the earliest pending signal is consumed at `max now t`, all signals queued by
then are drained, the loop sleeps one `PINGTIME` and sends one PING frame
whose write outcome `wfail` is only logged.  Returns the close time and the
(time, write-failed) record of each PING sent.  `fuel` exceeding the number
of pending signals makes the base case unreachable. -/
def keepEyeGo (wfail : Nat → Bool) : Nat → Nat → List Nat → Nat × List (Nat × Bool)
| 0, now, _ => (now + 6 * PINGTIME, [])
| fuel + 1, now, sigs =>
  match sigs.find? (fun t => decide (t ≤ now + 6 * PINGTIME)) with
  | none => (now + 6 * PINGTIME, [])
  | some t =>
    let tc := max now t
    let r := keepEyeGo wfail fuel (tc + PINGTIME) (sigs.filter (fun u => decide (tc < u)))
    (r.1, (tc + PINGTIME, wfail (tc + PINGTIME)) :: r.2)

/-- Liveness signals a session observes: `NewSession` queues one signal at
creation time 0 (`s.ch_ping <- 1`), followed by the arrival times of inbound
PING frames. -/
def sessionSignals (pings : List Nat) : List Nat := 0 :: pings

/-- Close time of the keepalive monitor for a session created at time 0 that
observes inbound PING signals at the given (sorted) times. -/
def keepAliveCloseTime (wfail : Nat → Bool) (pings : List Nat) : Nat :=
  (keepEyeGo wfail ((sessionSignals pings).length + 1) 0 (sessionSignals pings)).1

/-- A concrete inbound channel already holding `CHANLEN` frames (capacity
exhausted). -/
def fullChan : Chan := some (List.replicate CHANLEN (some (Frame.ack 5)))

/-! Helper lemmas about the ports association list. -/

theorem lookup_erasePort_self (ps : List (Nat × Chan)) (id : Nat) :
    (erasePort ps id).lookup id = none := by
  rw [List.lookup_eq_none_iff]
  intro p hp
  have h2 : (p.1 != id) = true := (List.mem_filter.mp hp).2
  simp only [bne_iff_ne, ne_eq] at h2 ⊢
  exact fun e => h2 e.symm

theorem lookup_insertPort_self (ps : List (Nat × Chan)) (id : Nat) (ch : Chan) :
    (insertPort ps id ch).lookup id = some ch := by
  simp [insertPort, List.lookup_cons]

theorem erasePort_insertPort (ps : List (Nat × Chan)) (id : Nat) (ch : Chan) :
    erasePort (insertPort ps id ch) id = erasePort ps id := by
  simp only [insertPort, erasePort, List.filter_cons, bne_self_eq_false, Bool.false_eq_true,
    if_false, List.filter_filter, Bool.and_self]

theorem erasePort_of_lookup_none (ps : List (Nat × Chan)) (id : Nat)
    (h : ps.lookup id = none) : erasePort ps id = ps := by
  rw [List.lookup_eq_none_iff] at h
  refine List.filter_eq_self.mpr ?_
  intro p hp
  have h2 := h p hp
  simp only [bne_iff_ne, ne_eq] at h2 ⊢
  exact fun e => h2 e.symm

example : (PutIntoNextId NewSession (some [])).1 = some 0 := by decide

example : (PutIntoNextId { NewSession with next_id := 7 } none).2.next_id = 8 := by decide

example : (RemovePorts (PutIntoId NewSession 5 none) 5).2.2.idleclose = true := by decide

example : (RemovePorts NewSession 9).1 = false := by decide

/-! Claim theorems. -/

/-- C8: `Write` performs exactly one transport write (the single `(n, err)`
result it consumes); the closed-connection error maps to count 0 with the
canonical end-of-stream error `io.EOF`; a nil transport error with fewer
bytes accepted than requested yields `io.ErrShortWrite` with no retry; any
other outcome is returned unchanged. -/
theorem write_spec (blen n : Nat) (e : NetErr) :
    Write blen (n, some NetErr.closing) = (0, some NetErr.eof) ∧
    (e ≠ NetErr.closing → Write blen (n, some e) = (n, some e)) ∧
    (n ≠ blen → Write blen (n, none) = (n, some NetErr.shortWrite)) ∧
    (n = blen → Write blen (n, none) = (n, none)) := by
  refine ⟨by simp [Write], fun he => ?_, fun hn => ?_, fun hn => ?_⟩
  · simp [Write, he]
  · simp [Write, hn]
  · simp [Write, hn]

/-- Witness for `write_spec` at concrete transport results: a short accepted
count of 4 out of 10 yields `io.ErrShortWrite`, and an unrelated transport
error passes through unchanged. -/
theorem write_spec_witness :
    Write 10 (4, none) = (4, some NetErr.shortWrite) ∧
    Write 10 (4, some (NetErr.other 7)) = (4, some (NetErr.other 7)) :=
  ⟨(write_spec 10 4 NetErr.eof).2.2.1 (by decide),
   (write_spec 10 4 (NetErr.other 7)).2.1 (by decide)⟩

/-- C9: a DNS frame never aborts the session (`Run` keeps going and the
state is untouched); every frame the handler passes to the writer is an ADDR
frame for the requested id carrying the resolved set, with the empty list
substituted when resolution failed; when encoding succeeds exactly that one
ADDR reply is attempted (never a FAILED), and an encode or write failure
still leaves the loop running. -/
theorem on_dns_spec (s : Session) (env : Env) (id : Nat) (host : String) :
    (RunStep s env (.frame (.dns id host))).1 = LoopAction.keepGoing ∧
    (RunStep s env (.frame (.dns id host))).2.1 = s ∧
    (∀ f ∈ (RunStep s env (.frame (.dns id host))).2.2,
      f = Frame.addr id (env.dns.resolve.getD [])) ∧
    (env.dns.encodeOk = true →
      (RunStep s env (.frame (.dns id host))).2.2
        = [Frame.addr id (env.dns.resolve.getD [])]) ∧
    (env.dns.resolve = none → env.dns.encodeOk = true →
      (RunStep s env (.frame (.dns id host))).2.2 = [Frame.addr id []]) := by
  refine ⟨rfl, rfl, ?_, fun he => ?_, fun hr he => ?_⟩
  · intro f hf
    by_cases he : env.dns.encodeOk
    · simpa [RunStep, on_dns, he] using hf
    · simp [RunStep, on_dns, he] at hf
  · simp [RunStep, on_dns, he]
  · simp [RunStep, on_dns, he, hr]

/-- Witness for `on_dns_spec`: a lookup failure for id 9 produces the reply
ADDR(9, empty-list), not a FAILED. -/
theorem on_dns_spec_witness :
    (RunStep NewSession ⟨⟨none, true⟩, ⟨none, true, false⟩⟩
        (.frame (.dns 9 "unknown.invalid"))).2.2 = [Frame.addr 9 []] :=
  (on_dns_spec NewSession ⟨⟨none, true⟩, ⟨none, true, false⟩⟩ 9
      "unknown.invalid").2.2.2.2 rfl rfl

/-- C7: an inbound SYN whose id is already in the ports table makes the
session attempt a FAILED(ERR_IDEXIST) reply through the write path; when
that reply write succeeds, the state is unchanged and the dispatch loop
keeps going — the collision is not fatal to the session. -/
theorem on_syn_idexist_spec (s : Session) (env : Env) (id : Nat) (address : String)
    (hid : (s.ports.lookup id).isSome = true) (hw : env.syn.writeOk = true) :
    RunStep s env (.frame (.syn id address))
      = (LoopAction.keepGoing, s, [Frame.failed id ERR_IDEXIST]) := by
  simp [RunStep, on_syn, hid, hw]

/-- Witness for `on_syn_idexist_spec`: a second SYN for the occupied id 5 is
answered with FAILED(5, ERR_IDEXIST) and the loop continues. -/
theorem on_syn_idexist_spec_witness :
    RunStep { next_id := 6, ports := [(5, some [])], idleclose := false, ch_ping := 1 }
        ⟨⟨some [], true⟩, ⟨none, true, true⟩⟩ (.frame (.syn 5 "example.com:80"))
      = (LoopAction.keepGoing,
         { next_id := 6, ports := [(5, some [])], idleclose := false, ch_ping := 1 },
         [Frame.failed 5 ERR_IDEXIST]) :=
  on_syn_idexist_spec _ _ 5 "example.com:80" (by decide) rfl

/-- C6: for an inbound SYN on a fresh id whose connect callback fails while
the FAILED reply write succeeds, the handler reserves the id with the nil
placeholder before invoking the callback (event order), attempts exactly the
FAILED(ERR_CONNFAILED) reply and then removes the reserved entry, so the
ports table is back to its original value — the id is free again — and the
dispatch loop keeps going. -/
theorem on_syn_connfail_spec (s : Session) (env : Env) (id : Nat) (address : String)
    (hfresh : s.ports.lookup id = none)
    (hconn : env.syn.connect = none) (hw : env.syn.writeOk = true) :
    (RunStep s env (.frame (.syn id address))).1 = LoopAction.keepGoing ∧
    (RunStep s env (.frame (.syn id address))).2.2 = [Frame.failed id ERR_CONNFAILED] ∧
    (RunStep s env (.frame (.syn id address))).2.1.ports = s.ports ∧
    ((RunStep s env (.frame (.syn id address))).2.1.ports.lookup id = none) ∧
    (on_syn s id address env.syn).events
      = [SynEv.reserve id, SynEv.connect id address,
         SynEv.write (Frame.failed id ERR_CONNFAILED) true, SynEv.remove id true] := by
  have hports : erasePort (PutIntoId s id none).ports id = s.ports := by
    simpa [PutIntoId, erasePort_insertPort] using erasePort_of_lookup_none s.ports id hfresh
  have hpresent : ((PutIntoId s id none).ports.lookup id).isSome = true := by
    simp [PutIntoId, lookup_insertPort_self]
  refine ⟨?_, ?_, ?_, ?_, ?_⟩ <;>
    simp [RunStep, on_syn, hfresh, hconn, hw, RemovePorts, hpresent, hports, hfresh]

/-- Witness for `on_syn_connfail_spec`: SYN(7, "bad:0") on an empty table
with a failing connect callback leaves id 7 free again and replies
FAILED(7, ERR_CONNFAILED). -/
theorem on_syn_connfail_spec_witness :
    (RunStep NewSession ⟨⟨none, true⟩, ⟨none, true, true⟩⟩
        (.frame (.syn 7 "bad:0"))).2.1.ports.lookup 7 = none ∧
    (RunStep NewSession ⟨⟨none, true⟩, ⟨none, true, true⟩⟩
        (.frame (.syn 7 "bad:0"))).2.2 = [Frame.failed 7 ERR_CONNFAILED] :=
  ⟨(on_syn_connfail_spec NewSession ⟨⟨none, true⟩, ⟨none, true, true⟩⟩ 7 "bad:0"
      rfl rfl rfl).2.2.2.1,
   (on_syn_connfail_spec NewSession ⟨⟨none, true⟩, ⟨none, true, true⟩⟩ 7 "bad:0"
      rfl rfl rfl).2.1⟩

/-- C10: for an inbound SYN on a fresh id where the connect callback fails
and the FAILED reply write also fails, the handler returns before the
removal step: the event trace stops at the failed write with no remove
event, the nil placeholder stays bound to the id in the ports table, and the
dispatch loop keeps going. -/
theorem on_syn_connfail_writefail_spec (s : Session) (env : Env) (id : Nat)
    (address : String) (hfresh : s.ports.lookup id = none)
    (hconn : env.syn.connect = none) (hw : env.syn.writeOk = false) :
    (RunStep s env (.frame (.syn id address))).2.1.ports = insertPort s.ports id none ∧
    (RunStep s env (.frame (.syn id address))).2.1.ports.lookup id = some none ∧
    (on_syn s id address env.syn).events
      = [SynEv.reserve id, SynEv.connect id address,
         SynEv.write (Frame.failed id ERR_CONNFAILED) false] ∧
    (RunStep s env (.frame (.syn id address))).1 = LoopAction.keepGoing := by
  refine ⟨?_, ?_, ?_, ?_⟩ <;>
    simp [RunStep, on_syn, hfresh, hconn, hw, PutIntoId, lookup_insertPort_self]

/-- Witness for `on_syn_connfail_writefail_spec`: with both the connect and
the reply write failing for SYN(7, "bad:0"), the placeholder entry for id 7
is still in the table afterwards. -/
theorem on_syn_connfail_writefail_spec_witness :
    (RunStep NewSession ⟨⟨none, false⟩, ⟨none, true, true⟩⟩
        (.frame (.syn 7 "bad:0"))).2.1.ports.lookup 7 = some none :=
  (on_syn_connfail_writefail_spec NewSession ⟨⟨none, false⟩, ⟨none, true, true⟩⟩ 7
      "bad:0" rfl rfl rfl).2.1

/-- C1 counterexample: an inbound DATA frame for stream 5, whose id is in the
table but whose queue holds `CHANLEN` frames, does not terminate the dispatch
loop — `sendFrameInChan` reports `RemovePorts(streamid) == nil`, and the
removal of a present entry succeeds, so `Run` keeps going (the entry is
removed and the frame dropped, but the overflow is not fatal to the
session). -/
theorem overflow_not_fatal_cex :
    (RunStep { next_id := 0, ports := [(5, fullChan)], idleclose := false, ch_ping := 1 }
        ⟨⟨none, true⟩, ⟨none, true, true⟩⟩ (Inbound.frame (Frame.data 5 [1]))).1
      = LoopAction.keepGoing ∧
    (RunStep { next_id := 0, ports := [(5, fullChan)], idleclose := false, ch_ping := 1 }
        ⟨⟨none, true⟩, ⟨none, true, true⟩⟩ (Inbound.frame (Frame.data 5 [1]))).2.1.ports
      = [] ∧
    LoopAction.keepGoing ≠ LoopAction.exit := by
  refine ⟨by decide, by decide, by decide⟩

/-- C1 amended: for an inbound stream-scoped frame whose id is present but
whose non-blocking enqueue fails (nil placeholder channel or a queue at
capacity), the frame is dropped without blocking, the stream's entry is
removed from the table, and the dispatch loop continues — `sendFrameInChan`
returns the success of `RemovePorts`, which cannot fail for a present entry,
so the overflow is not fatal to the session. -/
theorem overflow_drop_remove_continue (s : Session) (env : Env) (f : Frame) (ch : Chan)
    (hscope : streamScoped f = true)
    (hch : s.ports.lookup (GetStreamid f) = some ch)
    (hfull : trySend ch f = none) :
    (RunStep s env (.frame f)).1 = LoopAction.keepGoing ∧
    (RunStep s env (.frame f)).2.1.ports = erasePort s.ports (GetStreamid f) ∧
    (RunStep s env (.frame f)).2.1.ports.lookup (GetStreamid f) = none := by
  have hsome : (s.ports.lookup (GetStreamid f)).isSome = true := by simp [hch]
  cases f <;> simp_all [RunStep, sendFrameInChan, RemovePorts, GetStreamid, streamScoped,
    lookup_erasePort_self]

/-- Witness for `overflow_drop_remove_continue`: a FIN for stream 5 whose
queue is full is dropped, the entry removed, and the loop keeps going. -/
theorem overflow_drop_remove_continue_witness :
    (RunStep { next_id := 0, ports := [(5, fullChan)], idleclose := false, ch_ping := 1 }
        ⟨⟨none, true⟩, ⟨none, true, true⟩⟩ (.frame (Frame.fin 5))).1
      = LoopAction.keepGoing ∧
    (RunStep { next_id := 0, ports := [(5, fullChan)], idleclose := false, ch_ping := 1 }
        ⟨⟨none, true⟩, ⟨none, true, true⟩⟩ (.frame (Frame.fin 5))).2.1.ports.lookup 5
      = none :=
  ⟨(overflow_drop_remove_continue _ _ (Frame.fin 5) fullChan rfl (by decide)
      (by decide)).1,
   (overflow_drop_remove_continue _ _ (Frame.fin 5) fullChan rfl (by decide)
      (by decide)).2.2⟩

/-- C2 counterexample: `PutIntoId` (reserve) inserts an entry but leaves a
pending idle-close timer armed — after reserving id 5 into an empty session
with an armed timer, the table is non-empty while the timer is still armed,
so reserve does not disarm the pending timer as the claim states. -/
theorem putIntoId_keeps_timer_cex :
    (PutIntoId { next_id := 0, ports := [], idleclose := true, ch_ping := 0 } 5
        (some [])).idleclose = true ∧
    (PutIntoId { next_id := 0, ports := [], idleclose := true, ch_ping := 0 } 5
        (some [])).ports ≠ [] := by
  refine ⟨rfl, by decide⟩

/-- C2 amended: `PutIntoNextId` disarms any pending idle-close timer on every
successful allocation, but `PutIntoId` inserts without touching the timer at
all, and `RemovePorts` arms exactly one timer exactly when the table is empty
after the call — including when the removal itself failed on an already
empty table — while leaving the timer state unchanged when the table stays
non-empty. -/
theorem idle_timer_ops (s : Session) (ch : Chan) (id : Nat) :
    (∀ i s2, PutIntoNextId s ch = (some i, s2) → s2.idleclose = false) ∧
    (PutIntoId s id ch).idleclose = s.idleclose ∧
    ((RemovePorts s id).2.1 = 1 ↔ (RemovePorts s id).2.2.ports = []) ∧
    ((RemovePorts s id).2.2.ports = [] → (RemovePorts s id).2.2.idleclose = true) ∧
    ((RemovePorts s id).2.2.ports ≠ [] →
      (RemovePorts s id).2.2.idleclose = s.idleclose) := by
  have hq : (RemovePorts s id).2.1
      = (if (RemovePorts s id).2.2.ports = [] then 1 else 0) := rfl
  have hi : (RemovePorts s id).2.2.idleclose
      = (if (RemovePorts s id).2.2.ports = [] then true else s.idleclose) := rfl
  refine ⟨?_, rfl, ?_, ?_, ?_⟩
  · intro i s2 h
    rcases hf : findFreeId s.ports IDSPACE s.next_id with _ | j
    · simp [PutIntoNextId, hf] at h
    · simp only [PutIntoNextId, hf, Prod.mk.injEq] at h
      rw [← h.2]
  · rw [hq]
    by_cases hp : (RemovePorts s id).2.2.ports = [] <;> simp [hp]
  · intro h
    rw [hi, if_pos h]
  · intro h
    rw [hi, if_neg h]

/-- Witness for `idle_timer_ops`: removing the last entry (id 4) arms the
timer, and a reserve via `PutIntoId` leaves an armed timer armed. -/
theorem idle_timer_ops_witness :
    (RemovePorts { next_id := 0, ports := [(4, none)], idleclose := false, ch_ping := 2 }
        4).2.2.idleclose = true ∧
    (PutIntoId { next_id := 1, ports := [], idleclose := true, ch_ping := 0 } 8
        none).idleclose = true :=
  ⟨(idle_timer_ops
      { next_id := 0, ports := [(4, none)], idleclose := false, ch_ping := 2 }
      none 4).2.2.2.1 (by decide),
   (idle_timer_ops { next_id := 1, ports := [], idleclose := true, ch_ping := 0 }
      none 8).2.1⟩

/-- C3 counterexample: on a table with one stream whose queue is full, the
sentinel delivery of `Close` blocks (the source sends with a plain blocking
channel send, not a non-blocking drop-on-full attempt), so `Close` does not
complete and the deferred transport close never runs. -/
theorem close_blocks_on_full_cex :
    CloseSends [(5, some (List.replicate CHANLEN (some Frame.ping)))] = none ∧
    (some (List.replicate CHANLEN (some Frame.ping)) : Chan) ≠ none := by
  refine ⟨by decide, by decide⟩

/-- C3 amended: `Close` delivers the nil sentinel to every queue in the
table with a blocking send and only then closes the transport; it completes
exactly when every entry holds a real channel with spare capacity, in which
case each queue gets exactly one sentinel appended — a full queue or a nil
placeholder blocks `Close` indefinitely. -/
theorem close_blocking_spec (ps : List (Nat × Chan)) :
    ((CloseSends ps).isSome = true ↔ ∀ p ∈ ps, chanReady p.2 = true) ∧
    ((∀ p ∈ ps, chanReady p.2 = true) →
      CloseSends ps = some (ps.map (fun p => (p.1, p.2.map (fun q => q ++ [none]))))) := by
  induction ps with
  | nil => exact ⟨by simp [CloseSends], fun _ => rfl⟩
  | cons p rest ih =>
    rcases p with ⟨k, ch⟩
    constructor
    · rcases ch with _ | q
      · simp [CloseSends, sendSentinel, chanReady]
      · by_cases hlen : q.length < CHANLEN
        · have h1 : (CloseSends ((k, some q) :: rest)).isSome
              = (CloseSends rest).isSome := by
            simp [CloseSends, sendSentinel, hlen]
          rw [h1, ih.1]
          constructor
          · intro hr p hp
            rcases List.mem_cons.mp hp with h | h
            · subst h
              simpa [chanReady] using hlen
            · exact hr p h
          · intro hall p hp
            exact hall p (List.mem_cons_of_mem _ hp)
        · simp [CloseSends, sendSentinel, hlen, chanReady]
    · intro hall
      have hch : chanReady ch = true := hall (k, ch) (List.mem_cons_self _ _)
      rcases ch with _ | q
      · simp [chanReady] at hch
      · have hlen : q.length < CHANLEN := by simpa [chanReady] using hch
        have hrest := ih.2 (fun p hp => hall p (List.mem_cons_of_mem _ hp))
        simp [CloseSends, sendSentinel, hlen, hrest]

/-- Witness for `close_blocking_spec`: a table whose two channels have spare
capacity gets a sentinel appended to each and `Close` completes. -/
theorem close_blocking_spec_witness :
    CloseSends [(3, some [some (Frame.ok 3)]), (8, some [])]
      = some [(3, some [some (Frame.ok 3), none]), (8, some [none])] :=
  (close_blocking_spec [(3, some [some (Frame.ok 3)]), (8, some [])]).2 (by decide)

theorem findFreeId_found (ps : List (Nat × Chan)) :
    ∀ (fuel cur k : Nat), cur < IDSPACE → k < fuel →
      (∀ j, j < k → (ps.lookup ((cur + j) % IDSPACE)).isSome = true) →
      ps.lookup ((cur + k) % IDSPACE) = none →
      findFreeId ps fuel cur = some ((cur + k) % IDSPACE) := by
  intro fuel
  induction fuel with
  | zero => exact fun cur k _ hk => absurd hk (Nat.not_lt_zero k)
  | succ fuel ih =>
    intro cur k hcur hk hocc hfree
    have hmod : (cur + 0) % IDSPACE = cur := Nat.mod_eq_of_lt hcur
    rcases hcur0 : ps.lookup cur with _ | v
    · have hk0 : k = 0 := by
        by_contra h0
        have h1 := hocc 0 (Nat.pos_of_ne_zero h0)
        rw [hmod, hcur0] at h1
        simp at h1
      subst hk0
      rw [hmod]
      simp only [findFreeId, hcur0, Option.isSome_none, Bool.false_eq_true, if_false]
    · have hk0 : k ≠ 0 := by
        intro h0
        subst h0
        rw [hmod, hcur0] at hfree
        exact Option.noConfusion hfree
      rcases k with _ | k
      · exact absurd rfl hk0
      have hstep : ∀ j, ((cur + 1) % IDSPACE + j) % IDSPACE = (cur + (j + 1)) % IDSPACE := by
        intro j
        rw [Nat.mod_add_mod]
        congr 1
        omega
      have hres := ih ((cur + 1) % IDSPACE) k (Nat.mod_lt _ (by decide))
        (Nat.succ_lt_succ_iff.mp hk)
        (fun j hj => by
          rw [hstep j]
          exact hocc (j + 1) (Nat.succ_lt_succ hj))
        (by rw [hstep k]; exact hfree)
      simp only [findFreeId, hcur0, Option.isSome_some, if_true]
      rw [hres, hstep k]

theorem findFreeId_exhausted (ps : List (Nat × Chan)) :
    ∀ (fuel cur : Nat), cur < IDSPACE →
      (∀ k, k < fuel → (ps.lookup ((cur + k) % IDSPACE)).isSome = true) →
      findFreeId ps fuel cur = none := by
  intro fuel
  induction fuel with
  | zero => exact fun _ _ _ => rfl
  | succ fuel ih =>
    intro cur hcur hocc
    have h0 : (ps.lookup cur).isSome = true := by
      have hmod : (cur + 0) % IDSPACE = cur := Nat.mod_eq_of_lt hcur
      have h1 := hocc 0 (Nat.succ_pos fuel)
      rwa [hmod] at h1
    simp only [findFreeId, h0, if_true]
    refine ih ((cur + 1) % IDSPACE) (Nat.mod_lt _ (by decide)) ?_
    intro k hk
    have hstep : ((cur + 1) % IDSPACE + k) % IDSPACE = (cur + (k + 1)) % IDSPACE := by
      rw [Nat.mod_add_mod]
      congr 1
      omega
    rw [hstep]
    exact hocc (k + 1) (Nat.succ_lt_succ hk)

/-- C4: `PutIntoNextId` always terminates with one of two outcomes.  If the
id `(next_id + k) % 65536` is the first free id scanning forward with
wraparound from `next_id` (every earlier candidate occupied), the call
returns it, inserts the supplied channel there, sets `next_id` to the
returned id plus one mod 2^16 and disarms the idle timer; if all 65536 ids
are occupied it fails (the "run out of stream id" error) and leaves the
whole state, `next_id` included, unchanged. -/
theorem putIntoNextId_correct (s : Session) (ch : Chan) (hnext : s.next_id < IDSPACE) :
    (∀ k, k < IDSPACE →
      (∀ j, j < k → (s.ports.lookup ((s.next_id + j) % IDSPACE)).isSome = true) →
      s.ports.lookup ((s.next_id + k) % IDSPACE) = none →
      PutIntoNextId s ch
        = (some ((s.next_id + k) % IDSPACE),
           { s with next_id := ((s.next_id + k) % IDSPACE + 1) % IDSPACE,
                    ports := insertPort s.ports ((s.next_id + k) % IDSPACE) ch,
                    idleclose := false })) ∧
    ((∀ j, j < IDSPACE → (s.ports.lookup j).isSome = true) →
      PutIntoNextId s ch = (none, s)) := by
  constructor
  · intro k hk hocc hfree
    have hf := findFreeId_found s.ports IDSPACE s.next_id k hnext hk hocc hfree
    simp [PutIntoNextId, hf]
  · intro hall
    have hf := findFreeId_exhausted s.ports IDSPACE s.next_id hnext
      (fun k _ => hall ((s.next_id + k) % IDSPACE) (Nat.mod_lt _ (by decide)))
    simp [PutIntoNextId, hf]

/-- Witness for `putIntoNextId_correct`: with `next_id = 3` and id 3
occupied, allocation skips to the free id 4, inserts there, and advances
`next_id` to 5 while disarming the armed idle timer. -/
theorem putIntoNextId_correct_witness :
    PutIntoNextId { next_id := 3, ports := [(3, some [])], idleclose := true, ch_ping := 0 }
        none
      = (some 4,
         { next_id := 5, ports := [(4, none), (3, some [])], idleclose := false,
           ch_ping := 0 }) := by
  have h := (putIntoNextId_correct
      { next_id := 3, ports := [(3, some [])], idleclose := true, ch_ping := 0 } none
      (by decide)).1 1 (by decide) (by decide) (by decide)
  simpa [insertPort, erasePort] using h

theorem keepEyeGo_succ_found (wf : Nat → Bool) (fuel now t : Nat) (sigs : List Nat)
    (h : sigs.find? (fun u => decide (u ≤ now + 6 * PINGTIME)) = some t) :
    keepEyeGo wf (fuel + 1) now sigs
      = ((keepEyeGo wf fuel (max now t + PINGTIME)
            (sigs.filter (fun u => decide (max now t < u)))).1,
         (max now t + PINGTIME, wf (max now t + PINGTIME))
           :: (keepEyeGo wf fuel (max now t + PINGTIME)
                 (sigs.filter (fun u => decide (max now t < u)))).2) := by
  simp only [keepEyeGo, h]

theorem keepEyeGo_succ_none (wf : Nat → Bool) (fuel now : Nat) (sigs : List Nat)
    (h : sigs.find? (fun u => decide (u ≤ now + 6 * PINGTIME)) = none) :
    keepEyeGo wf (fuel + 1) now sigs = (now + 6 * PINGTIME, []) := by
  simp only [keepEyeGo, h]

theorem keepEyeGo_nil (wf : Nat → Bool) (fuel now : Nat) :
    keepEyeGo wf fuel now [] = (now + 6 * PINGTIME, []) := by
  cases fuel with
  | zero => rfl
  | succ fuel => simp only [keepEyeGo, List.find?_nil]

/-- C5 counterexample: a session whose only liveness signal is the one queued
at creation (time 0, `sessionSignals []`) is force-closed by the keepalive
monitor at `7 * PINGTIME` = 210 seconds, not at `6 * PINGTIME` = 180 seconds
after the last signal as the claim states: the 6-interval window is re-armed
only at the top of the next loop iteration, which starts one full ping
interval (the post-signal sleep) after the signal was consumed. -/
theorem keepalive_deadline_cex :
    keepAliveCloseTime (fun _ => false) [] = 7 * PINGTIME ∧
    7 * PINGTIME ≠ 0 + 6 * PINGTIME := by
  exact ⟨by decide, by decide⟩

/-- C5 amended: after the keepalive monitor consumes a liveness signal at
time `t` (any burst of queued duplicates at `t` is drained with it —
coalescing), it sleeps one ping interval, sends exactly one outbound PING at
`t + PINGTIME`, and then force-closes at `t + 7 * PINGTIME` if no further
signal arrives — one sleep interval plus the 6-interval window, not
`6 * PINGTIME` from the signal itself; the close time is independent of
whether the PING writes fail, since a write failure is only logged. -/
theorem keepalive_spec (wf wf2 : Nat → Bool) (now t : Nat)
    (h1 : now ≤ t) (h2 : t ≤ now + 6 * PINGTIME) :
    (∀ m, keepEyeGo wf 2 now (List.replicate (m + 1) t)
        = (t + 7 * PINGTIME, [(t + PINGTIME, wf (t + PINGTIME))])) ∧
    (∀ fuel start sigs, (keepEyeGo wf fuel start sigs).1
        = (keepEyeGo wf2 fuel start sigs).1) := by
  constructor
  · intro m
    have hfind : (List.replicate (m + 1) t).find?
        (fun u => decide (u ≤ now + 6 * PINGTIME)) = some t := by
      rw [List.replicate_succ]
      exact List.find?_cons_of_pos _ (by simpa using h2)
    have hmax : max now t = t := max_eq_right h1
    have hfilt : ∀ n, (List.replicate n t).filter (fun u => decide (t < u)) = [] := by
      intro n
      induction n with
      | zero => rfl
      | succ n ihn =>
        rw [List.replicate_succ, List.filter_cons]
        simp [ihn]
    rw [show (2 : Nat) = 1 + 1 from rfl, keepEyeGo_succ_found wf 1 now t _ hfind,
        hmax, hfilt (m + 1), keepEyeGo_nil]
    have h7 : t + PINGTIME + 6 * PINGTIME = t + 7 * PINGTIME := by omega
    rw [h7]
  · intro fuel
    induction fuel with
    | zero => exact fun _ _ => rfl
    | succ fuel ih =>
      intro start sigs
      rcases hf : sigs.find? (fun u => decide (u ≤ start + 6 * PINGTIME)) with _ | u
      · rw [keepEyeGo_succ_none wf fuel start sigs hf,
            keepEyeGo_succ_none wf2 fuel start sigs hf]
      · rw [keepEyeGo_succ_found wf fuel start u sigs hf,
            keepEyeGo_succ_found wf2 fuel start u sigs hf]
        exact ih _ _

/-- Witness for `keepalive_spec`: a burst of three signals at time 100 is
coalesced into one consumption, one PING goes out at 130, and with no later
signal the monitor closes at `100 + 7 * PINGTIME` = 310. -/
theorem keepalive_spec_witness :
    keepEyeGo (fun _ => false) 2 0 (List.replicate 3 100)
      = (100 + 7 * PINGTIME, [(100 + PINGTIME, false)]) :=
  (keepalive_spec (fun _ => false) (fun _ => true) 0 100 (by decide) (by decide)).1 2

end Msocks
